import Mathlib

/-!
# Verification of the Kotlin/Native runtime lifecycle controller

A shallow embedding of `runtime/src/main/cpp/Runtime.cpp`: the global status
machine, the per-thread runtime handles, the alive/initializing counters, the
initializer registry, and the init/deinit/shutdown orchestration.

Modelling conventions:
* Pointers to `RuntimeState` objects are addresses (`Nat`) into a heap list;
  a destructed object is `none` at its address.
* Memory-manager states and worker identities produced by the external
  collaborators (`InitMemory`, `WorkerInit`) are fresh abstract numerals.
* Calls into external collaborators (`RestoreMemory`, `WorkerDeinit`,
  `ShutdownCleaners`, ...) and the initializer-phase invocations are recorded
  in an event trace, so ordering claims can be stated about the trace.
* `konan::abort()` terminates the process: it is modelled by setting the
  `aborted` field, after which every further step leaves the state frozen.
* Each runtime entry point executes atomically except `Kotlin_shutdownRuntime`,
  which is split at its two compare-and-swap points (`shutdownBegin` /
  `shutdownStep`), so that interleavings of other threads with an in-progress
  shutdown are expressible.  `shutdownStep` applied while the initializing
  count is positive is one iteration of the source's spin loop.
-/

namespace KotlinRuntime

/-- `enum GlobalRuntimeStatus` (Runtime.cpp lines 79-84). -/
inductive GlobalRuntimeStatus where
  | kGlobalRuntimeUninitialized
  | kGlobalRuntimeRunning
  | kGlobalRuntimeShuttingDown
  | kGlobalRuntimeShutdown
deriving DecidableEq

/-- `enum class RuntimeStatus` (lines 39-43). -/
inductive RuntimeStatus where
  | kUninitialized
  | kRunning
  | kDestroying
deriving DecidableEq

/-- `struct RuntimeState` (lines 45-49): the per-thread runtime handle.
Memory-manager state and worker identity are abstract numerals. -/
structure RuntimeState where
  memoryState : Nat
  worker : Nat
  status : RuntimeStatus
deriving DecidableEq

/-- Phase constants (lines 51-56). -/
@[simp] def INIT_GLOBALS : Nat := 0

@[simp] def INIT_THREAD_LOCAL_GLOBALS : Nat := 1

@[simp] def DEINIT_THREAD_LOCAL_GLOBALS : Nat := 2

@[simp] def DEINIT_GLOBALS : Nat := 3

/-- Observable actions performed by the lifecycle code: calls into external
collaborators and initializer-phase invocations, in program order. -/
inductive Event where
  | setKonanTerminateHandler
  | aliveIncremented (newValue : Int)
  | aliveDecremented (newValue : Int)
  | consoleInit
  | objcExportInit
  | phaseRun (phase : Nat) (memory : Nat)
  | restoreMemory (memory : Nat)
  | setDestroying (handle : Nat)
  | workerDeinit (worker : Nat)
  | deinitMemory (memory : Nat)
  | destructInstance (handle : Nat)
  | workerDestroyThreadData (workerId : Nat)
  | onThreadExitRegistered (tid : Nat) (argument : Option Nat)
  | performFullGC (memory : Nat)
  | shutdownCleaners (executeScheduledCleaners : Bool)
  | waitNativeWorkersTermination
deriving DecidableEq

/-- The process-wide state of the translation unit: the file-scope globals of
Runtime.cpp, the heap of `RuntimeState` objects, every thread's
`THREAD_LOCAL_VARIABLE RuntimeState* runtimeState` cell, the event trace, and
the abort flag.  `shutdownFrame` holds the stack frame of an in-progress
`Kotlin_shutdownRuntime` call between its two compare-and-swap points:
the calling thread, the captured `runtime` pointer, and whether the
ShuttingDown→Shutdown CAS has already executed. -/
structure ProcState where
  globalRuntimeStatus : GlobalRuntimeStatus
  aliveRuntimesCount : Int
  initializingRuntimesCount : Int
  runtimeStateTLS : Nat → Option Nat
  handles : List (Option RuntimeState)
  nextMemoryState : Nat
  nextWorker : Nat
  g_checkLeaks : Bool
  g_checkLeakedCleaners : Bool
  konanObjcInterop : Bool
  shutdownFrame : Option (Nat × Nat × Bool)
  events : List Event
  aborted : Option String

/-- `konan::consoleErrorf(...); konan::abort();` — the process terminates with
a diagnostic.  The state is frozen from this point on. -/
def abortWith (s : ProcState) (msg : String) : ProcState :=
  { s with aborted := some msg }

/-- `isValidRuntime()` (lines 73-75) on a given thread's TLS cell. -/
def isValidRuntime (s : ProcState) (tid : Nat) : Bool :=
  (s.runtimeStateTLS tid).isSome

/-- `Kotlin_memoryLeakCheckerEnabled()` (lines 319-321). -/
def Kotlin_memoryLeakCheckerEnabled (s : ProcState) : Bool :=
  s.g_checkLeaks

/-- `Kotlin_cleanersLeakCheckerEnabled()` (lines 331-333). -/
def Kotlin_cleanersLeakCheckerEnabled (s : ProcState) : Bool :=
  s.g_checkLeakedCleaners

/-- `Konan_Platform_setMemoryLeakChecker` (lines 327-329). -/
def Konan_Platform_setMemoryLeakChecker (s : ProcState) (value : Bool) : ProcState :=
  { s with g_checkLeaks := value }

/-- `Konan_Platform_setCleanersLeakChecker` (lines 339-341). -/
def Konan_Platform_setCleanersLeakChecker (s : ProcState) (value : Bool) : ProcState :=
  { s with g_checkLeakedCleaners := value }

/-- Models the external `GetWorkerId(Worker*)`: worker identities are already
abstract numerals in this embedding, so the id of a worker is the worker
itself. -/
def GetWorkerId (worker : Nat) : Nat :=
  worker

/-- `runtime->memoryState` for the handle at `addr` (0 if dangling, which no
reachable caller dereferences). -/
def memoryOf (s : ProcState) (addr : Nat) : Nat :=
  match s.handles[addr]? with
  | some (some h) => h.memoryState
  | _ => 0

/-- Embeds `initRuntime()` (lines 114-143).  `allocOk` says whether
`konanConstructInstance<RuntimeState>()` succeeds; on failure the function
returns `kInvalidRuntime` (`none`) with nothing stored.  The
`ScopedInitializingRuntime` guard increments the initializing count on entry
and decrements it on every *returning* exit; `konan::abort()` never returns,
so aborting paths leave the count raised, exactly as the dying process would.
The compare-and-swap on `globalRuntimeStatus` is written as a conditional
field update; note that it aborts only when the prior status was
`kGlobalRuntimeShutdown` — observing `kGlobalRuntimeShuttingDown` proceeds.
On the success path the handle is allocated `kUninitialized` and advanced to
`kRunning` at the end of the call (lines 124, 140-141); within this atomic
step only the final status is observable, and the `RuntimeAssert` at line 140
on the freshly built, thread-private handle holds by construction. -/
def initRuntime (s : ProcState) (tid : Nat) (allocOk : Bool) : ProcState × Option Nat :=
  let lastStatus := s.globalRuntimeStatus
  let s1 : ProcState :=
    { s with
      initializingRuntimesCount := s.initializingRuntimesCount + 1
      globalRuntimeStatus :=
        if lastStatus = GlobalRuntimeStatus.kGlobalRuntimeUninitialized then
          GlobalRuntimeStatus.kGlobalRuntimeRunning
        else lastStatus }
  if lastStatus = GlobalRuntimeStatus.kGlobalRuntimeShutdown then
    (abortWith s1 "Kotlin runtime was shut down. Cannot create new runtimes", none)
  else if !allocOk then
    ({ s1 with
        events := s1.events ++ [Event.setKonanTerminateHandler]
        initializingRuntimesCount := s1.initializingRuntimesCount - 1 }, none)
  else if isValidRuntime s1 tid then
    (abortWith
      { s1 with events := s1.events ++ [Event.setKonanTerminateHandler] }
      "No active runtimes allowed", none)
  else
    let addr := s1.handles.length
    let mem := s1.nextMemoryState
    let wrk := s1.nextWorker
    ({ s1 with
        runtimeStateTLS := fun t => if t = tid then some addr else s1.runtimeStateTLS t
        handles := s1.handles ++
          [some { memoryState := mem, worker := wrk, status := RuntimeStatus.kRunning }]
        nextMemoryState := mem + 1
        nextWorker := wrk + 1
        aliveRuntimesCount := s1.aliveRuntimesCount + 1
        initializingRuntimesCount := s1.initializingRuntimesCount - 1
        events := s1.events ++
          [Event.setKonanTerminateHandler,
           Event.aliveIncremented (s1.aliveRuntimesCount + 1)] ++
          (if s1.aliveRuntimesCount + 1 = 1 then
            [Event.consoleInit] ++
            (if s1.konanObjcInterop then [Event.objcExportInit] else []) ++
            [Event.phaseRun INIT_GLOBALS mem]
          else []) ++
          [Event.phaseRun INIT_THREAD_LOCAL_GLOBALS mem] }, some addr)

/-- Embeds `deinitRuntime(RuntimeState*)` (lines 145-159), `addr` being the
pointer.  The handle is marked `kDestroying` first, the owned resources are
then released in source order, the object is destructed, and the worker id
saved *before* destruction keys the final OS-thread-local cleanup.  The two
`List.set` writes record the `kDestroying` marking followed by the
destruction of the object within this atomic step.  Calling it on a pointer
that is not a live `RuntimeState` dereferences garbage; the `RuntimeAssert`
at line 146 stops the process on any status other than `kRunning`, and the
dangling-pointer case is modelled as the same fatal stop. -/
def deinitRuntime (s : ProcState) (addr : Nat) : ProcState :=
  match s.handles[addr]? with
  | some (some h) =>
    if h.status = RuntimeStatus.kRunning then
      { s with
        aliveRuntimesCount := s.aliveRuntimesCount - 1
        handles :=
          (s.handles.set addr
            (some { h with status := RuntimeStatus.kDestroying })).set addr none
        events := s.events ++
          [Event.setDestroying addr,
           Event.restoreMemory h.memoryState,
           Event.aliveDecremented (s.aliveRuntimesCount - 1),
           Event.phaseRun DEINIT_THREAD_LOCAL_GLOBALS h.memoryState] ++
          (if s.aliveRuntimesCount - 1 = 0 then
            [Event.phaseRun DEINIT_GLOBALS h.memoryState]
          else []) ++
          [Event.workerDeinit h.worker,
           Event.deinitMemory h.memoryState,
           Event.destructInstance addr,
           Event.workerDestroyThreadData (GetWorkerId h.worker)] }
    else abortWith s "Runtime must be in the running state"
  | _ => abortWith s "Runtime must be in the running state"

/-- Embeds `Kotlin_deinitRuntimeCallback(void*)` (lines 161-164): casts the
registered argument back to a `RuntimeState*` and deinitializes it.  A null
argument dereferences null inside `deinitRuntime`; modelled as a fatal stop. -/
def Kotlin_deinitRuntimeCallback (s : ProcState) (argument : Option Nat) : ProcState :=
  match argument with
  | some addr => deinitRuntime s addr
  | none => abortWith s "Runtime must be in the running state"

/-- Embeds `Kotlin_initRuntimeIfNeeded()` (lines 180-186) for one thread.
Note that after `initRuntime()` returns — also when it returned
`kInvalidRuntime` on allocation failure — the thread-exit callback is
registered unconditionally, with whatever `::runtimeState` currently holds as
its argument. -/
def Kotlin_initRuntimeIfNeeded (s : ProcState) (tid : Nat) (allocOk : Bool) : ProcState :=
  if isValidRuntime s tid then s
  else
    let s1 := (initRuntime s tid allocOk).1
    if s1.aborted.isSome then s1
    else
      { s1 with
        events := s1.events ++ [Event.onThreadExitRegistered tid (s1.runtimeStateTLS tid)] }

/-- Embeds `Kotlin_deinitRuntimeIfNeeded()` (lines 188-193) for one thread. -/
def Kotlin_deinitRuntimeIfNeeded (s : ProcState) (tid : Nat) : ProcState :=
  match s.runtimeStateTLS tid with
  | none => s
  | some addr =>
    let s1 := deinitRuntime s addr
    if s1.aborted.isSome then s1
    else { s1 with runtimeStateTLS := fun t => if t = tid then none else s1.runtimeStateTLS t }

/-- Embeds the first half of `Kotlin_shutdownRuntime()` (lines 196-223), up to
and including `ShutdownCleaners`: the Running→ShuttingDown CAS with its fatal
diagnostics, the current-thread check, the optional full collection, and
stopping the cleaners.  The local `runtime` pointer is saved in
`shutdownFrame` (CAS-to-Shutdown not yet performed). -/
def Kotlin_shutdownRuntime_begin (s : ProcState) (tid : Nat) : ProcState :=
  match s.globalRuntimeStatus with
  | GlobalRuntimeStatus.kGlobalRuntimeRunning =>
    let s1 : ProcState :=
      { s with globalRuntimeStatus := GlobalRuntimeStatus.kGlobalRuntimeShuttingDown }
    match s1.runtimeStateTLS tid with
    | none => abortWith s1 "Current thread must have Kotlin runtime initialized on it"
    | some addr =>
      { s1 with
        events := s1.events ++
          (if Kotlin_cleanersLeakCheckerEnabled s1 then
            [Event.performFullGC (memoryOf s1 addr)]
          else []) ++
          [Event.shutdownCleaners (Kotlin_cleanersLeakCheckerEnabled s1)]
        shutdownFrame := some (tid, addr, false) }
  | GlobalRuntimeStatus.kGlobalRuntimeShuttingDown =>
    abortWith s "Cannot shutdown Kotlin runtime twice"
  | GlobalRuntimeStatus.kGlobalRuntimeShutdown =>
    abortWith s "Cannot shutdown Kotlin runtime twice"
  | GlobalRuntimeStatus.kGlobalRuntimeUninitialized =>
    abortWith s "Kotlin runtime must have been initialized"

/-- The last two lines of `Kotlin_shutdownRuntime` (247-248): tear down the
calling thread's own runtime through the normal `deinitRuntime` path and null
out its thread-local cell (the pending-call frame is dropped as the call
returns). -/
def shutdownDeinitSelf (s : ProcState) (tid : Nat) (addr : Nat) : ProcState :=
  let s2 := deinitRuntime { s with shutdownFrame := none } addr
  if s2.aborted.isSome then s2
  else { s2 with runtimeStateTLS := fun t => if t = tid then none else s2.runtimeStateTLS t }

/-- The tail of `Kotlin_shutdownRuntime()` after the ShuttingDown→Shutdown CAS
(lines 229-248): the spin on the initializing count, the leak-checker gate,
and the teardown of the calling thread's own runtime.  The guard at line 233
is transcribed exactly as written in the source:
`Kotlin_memoryLeakCheckerEnabled() || Kotlin_memoryLeakCheckerEnabled()` —
both disjuncts read `g_checkLeaks`; the cleaners checker is *not* consulted
here.  While the initializing count is positive the state is returned
unchanged with the frame still pending: one iteration of the spin loop. -/
def Kotlin_shutdownRuntime_tail (s : ProcState) (tid : Nat) (addr : Nat) : ProcState :=
  if s.initializingRuntimesCount > 0 then s
  else if Kotlin_memoryLeakCheckerEnabled s || Kotlin_memoryLeakCheckerEnabled s then
    let s1 : ProcState :=
      { s with events := s.events ++ [Event.waitNativeWorkersTermination] }
    if s1.aliveRuntimesCount - 1 < 0 then abortWith s1 "Cannot be negative"
    else if s1.aliveRuntimesCount - 1 > 0 then
      abortWith s1 "Cannot run checkers when there are alive runtimes at the shutdown"
    else shutdownDeinitSelf s1 tid addr
  else shutdownDeinitSelf s tid addr

/-- One step of the pending `Kotlin_shutdownRuntime` call past its first CAS:
performs the ShuttingDown→Shutdown CAS with its `RuntimeAssert` (lines
226-227) if not yet done, then runs (or keeps spinning in) the tail.  With no
pending call this does nothing. -/
def Kotlin_shutdownRuntime_finish (s : ProcState) : ProcState :=
  match s.shutdownFrame with
  | none => s
  | some (tid, addr, casDone) =>
    if casDone then Kotlin_shutdownRuntime_tail s tid addr
    else
      if s.globalRuntimeStatus = GlobalRuntimeStatus.kGlobalRuntimeShuttingDown then
        Kotlin_shutdownRuntime_tail
          { s with
            globalRuntimeStatus := GlobalRuntimeStatus.kGlobalRuntimeShutdown
            shutdownFrame := some (tid, addr, true) } tid addr
      else abortWith s "Must be in ShuttingDown state"

/-- The whole `Kotlin_shutdownRuntime()` (lines 196-249) run without
interference from other threads: the first half followed by the rest. -/
def Kotlin_shutdownRuntime (s : ProcState) (tid : Nat) : ProcState :=
  let s1 := Kotlin_shutdownRuntime_begin s tid
  if s1.aborted.isSome then s1 else Kotlin_shutdownRuntime_finish s1

/-- One atomic step of one thread, for building interleaved executions.
`ensure`/`teardown` are the (atomic) public entry points; a call to
`Kotlin_shutdownRuntime` is the `shutdownBegin` step followed by one or more
`shutdownStep` steps (several while other constructions keep the spin loop
going).  The leak-checker setters are included because they are ordinary
entry points of the translation unit. -/
inductive Action where
  | ensure (tid : Nat) (allocOk : Bool)
  | teardown (tid : Nat)
  | shutdownBegin (tid : Nat)
  | shutdownStep
  | setMemoryLeakChecker (value : Bool)
  | setCleanersLeakChecker (value : Bool)
deriving DecidableEq

/-- Executes one step; a state in which the process has already aborted is
frozen. -/
def step (s : ProcState) (a : Action) : ProcState :=
  if s.aborted.isSome then s
  else
    match a with
    | Action.ensure tid allocOk => Kotlin_initRuntimeIfNeeded s tid allocOk
    | Action.teardown tid => Kotlin_deinitRuntimeIfNeeded s tid
    | Action.shutdownBegin tid => Kotlin_shutdownRuntime_begin s tid
    | Action.shutdownStep => Kotlin_shutdownRuntime_finish s
    | Action.setMemoryLeakChecker v => Konan_Platform_setMemoryLeakChecker s v
    | Action.setCleanersLeakChecker v => Konan_Platform_setCleanersLeakChecker s v

/-- Runs a whole interleaved execution. -/
def run (s : ProcState) (as : List Action) : ProcState :=
  as.foldl step s

/-- The state at process load: all globals at their static initializers
(lines 66-67, 77, 86, 112).  `konanNeedDebugInfo` is the build-time
`KonanNeedDebugInfo` flag seeding both leak checkers; `objcInterop` is the
build-time `KONAN_OBJC_INTEROP` flag. -/
def initialState (konanNeedDebugInfo : Bool) (objcInterop : Bool) : ProcState :=
  { globalRuntimeStatus := GlobalRuntimeStatus.kGlobalRuntimeUninitialized
    aliveRuntimesCount := 0
    initializingRuntimesCount := 0
    runtimeStateTLS := fun _ => none
    handles := []
    nextMemoryState := 0
    nextWorker := 0
    g_checkLeaks := konanNeedDebugInfo
    g_checkLeakedCleaners := konanNeedDebugInfo
    konanObjcInterop := objcInterop
    shutdownFrame := none
    events := []
    aborted := none }

/-- The number of `RuntimeState` objects currently alive in the heap, i.e.
between their construction and their destruction. -/
def presentOf (l : List (Option RuntimeState)) : Nat :=
  (l.filter Option.isSome).length

/-- How many times the initializer phase `p` has been run in a trace. -/
def countPhase (es : List Event) (p : Nat) : Nat :=
  match es with
  | [] => 0
  | Event.phaseRun q _ :: rest => (if q = p then 1 else 0) + countPhase rest p
  | _ :: rest => countPhase rest p

/-- The inductive invariant of the lifecycle machine over non-aborted states:
the alive counter equals the number of live handles (hence is never
negative), every live handle is `kRunning` between steps, the thread-local
phases have run once per handle construction (`handles.length` counts every
construction ever, destructed or not) and once per handle destruction, and
the global init phase has run exactly once more than the global deinit phase
iff some handle is alive. -/
def Inv (s : ProcState) : Prop :=
  s.aliveRuntimesCount = (presentOf s.handles : Int) ∧
  (∀ h : RuntimeState, some h ∈ s.handles → h.status = RuntimeStatus.kRunning) ∧
  countPhase s.events INIT_THREAD_LOCAL_GLOBALS = s.handles.length ∧
  countPhase s.events DEINIT_THREAD_LOCAL_GLOBALS = s.handles.length - presentOf s.handles ∧
  countPhase s.events INIT_GLOBALS =
    countPhase s.events DEINIT_GLOBALS + (if presentOf s.handles = 0 then 0 else 1)

/-! ## The initializer registry (lines 28-37, 58-64, 170-178)

The registry is the source's intrusive singly-linked list: static `InitNode`
objects chained through raw `next` pointers, with file-scope head and tail
pointers.  Nodes live in a heap list addressed by `Nat`. -/

/-- `struct InitNode` (lines 29-32); the callback is an abstract numeral. -/
structure InitNode where
  init : Nat
  next : Option Nat
deriving DecidableEq

/-- The registry globals `initHeadNode`/`initTailNode` (lines 36-37) plus the
heap of nodes. -/
structure InitializersRegistry where
  nodes : List InitNode
  initHeadNode : Option Nat
  initTailNode : Option Nat
deriving DecidableEq

/-- The registry before any module registers: both pointers null. -/
def emptyRegistry : InitializersRegistry :=
  { nodes := [], initHeadNode := none, initTailNode := none }

/-- Embeds `AppendToInitializersTail(InitNode*)` (lines 170-178).  `next` is
the address of a node already present in the heap (a static node of the
registering module, zero-initialized, so its `next` field is null).  When the
head is null the node becomes the head; otherwise the current tail's `next`
pointer is redirected to it; either way the tail pointer is advanced.  (A
registry with a head but no tail would dereference null at line 175; such a
registry is never built.) -/
def AppendToInitializersTail (r : InitializersRegistry) (next : Nat) : InitializersRegistry :=
  match r.initHeadNode with
  | none => { r with initHeadNode := some next, initTailNode := some next }
  | some _ =>
    match r.initTailNode with
    | some t =>
      { r with
        nodes := r.nodes.set t
          { init := (r.nodes.getD t { init := 0, next := none }).init, next := some next }
        initTailNode := some next }
    | none => { r with initTailNode := some next }

/-- A module registering a global-variable initializer: it allocates a fresh
static `InitNode` holding `callback` with a null `next` pointer and passes
its address to `AppendToInitializersTail`. -/
def registerGlobalInitializer (r : InitializersRegistry) (callback : Nat) : InitializersRegistry :=
  AppendToInitializersTail
    { r with nodes := r.nodes ++ [{ init := callback, next := none }] }
    r.nodes.length

/-- Walks the chain from a node address, collecting the callbacks in link
order; the fuel bounds the walk (any acyclic chain in a heap of `n` nodes is
exhausted by fuel `n`). -/
def chainFrom (nodes : List InitNode) : Nat → Option Nat → List Nat
  | 0, _ => []
  | _, none => []
  | fuel + 1, some a =>
    match nodes[a]? with
    | none => []
    | some nd => nd.init :: chainFrom nodes fuel nd.next

/-- Embeds `InitOrDeinitGlobalVariables(int, MemoryState*)` (lines 58-64):
walks the chain from `initHeadNode` and invokes every callback with the phase
tag and the memory state, returning the invocations in call order. -/
def InitOrDeinitGlobalVariables (r : InitializersRegistry) (phase : Nat) (memory : Nat) :
    List (Nat × Nat × Nat) :=
  (chainFrom r.nodes r.nodes.length r.initHeadNode).map fun cb => (cb, phase, memory)

/-- Well-formedness of a registry built by registering `cbs` in order: the
nodes sit at consecutive addresses, node `i` holds callback `i` and links to
node `i+1` (null for the last), and head/tail point at the first/last node. -/
def RegistryWF (r : InitializersRegistry) (cbs : List Nat) : Prop :=
  r.nodes.length = cbs.length ∧
  (∀ i, i < cbs.length →
    r.nodes[i]? = some
      { init := cbs.getD i 0
        next := if i + 1 = cbs.length then none else some (i + 1) }) ∧
  r.initHeadNode = (if cbs.length = 0 then none else some 0) ∧
  r.initTailNode = (if cbs.length = 0 then none else some (cbs.length - 1))

/-! ## Helper lemmas -/

theorem countPhase_nil (p : Nat) : countPhase [] p = 0 := rfl

theorem countPhase_append (es fs : List Event) (p : Nat) :
    countPhase (es ++ fs) p = countPhase es p + countPhase fs p := by
  induction es with
  | nil => simp [countPhase]
  | cons e rest ih =>
    cases e <;> (simp [countPhase, ih]; try omega)

theorem countPhase_if (c : Prop) [Decidable c] (l m : List Event) (p : Nat) :
    countPhase (if c then l else m) p = if c then countPhase l p else countPhase m p := by
  split <;> rfl

theorem presentOf_nil : presentOf [] = 0 := rfl

theorem presentOf_append (l m : List (Option RuntimeState)) :
    presentOf (l ++ m) = presentOf l + presentOf m := by
  simp [presentOf, List.filter_append]

theorem presentOf_le_length (l : List (Option RuntimeState)) : presentOf l ≤ l.length :=
  List.length_filter_le _ l

theorem presentOf_cons (a : Option RuntimeState) (l : List (Option RuntimeState)) :
    presentOf (a :: l) = (if a.isSome then 1 else 0) + presentOf l := by
  cases a <;> simp [presentOf, List.filter_cons, Nat.add_comm]

theorem presentOf_set_none (l : List (Option RuntimeState)) (i : Nat) (h : RuntimeState)
    (hi : l[i]? = some (some h)) : presentOf (l.set i none) + 1 = presentOf l := by
  induction l generalizing i with
  | nil => simp at hi
  | cons a t ih =>
    cases i with
    | zero =>
      simp only [List.getElem?_cons_zero, Option.some.injEq] at hi
      subst hi
      simp [List.set, presentOf_cons]
      omega
    | succ n =>
      simp only [List.getElem?_cons_succ] at hi
      have h2 := ih n hi
      simp only [List.set, presentOf_cons]
      omega

/-! ## Claim C5: ensureRuntime is idempotent per thread -/

theorem Kotlin_initRuntimeIfNeeded_noop (s : ProcState) (tid : Nat) (allocOk : Bool)
    (h : (s.runtimeStateTLS tid).isSome) :
    Kotlin_initRuntimeIfNeeded s tid allocOk = s := by
  simp [Kotlin_initRuntimeIfNeeded, isValidRuntime, h]

/-- C5: for a thread that already holds a live handle, a further
`Kotlin_initRuntimeIfNeeded` call is a no-op: the state — and in particular
that thread's handle, every counter, and the event trace — is unchanged. -/
theorem claim_C5_theorem (s : ProcState) (tid : Nat) (allocOk : Bool)
    (h : (s.runtimeStateTLS tid).isSome) :
    Kotlin_initRuntimeIfNeeded s tid allocOk = s :=
  Kotlin_initRuntimeIfNeeded_noop s tid allocOk h

/-- Witness for C5: after thread 0 acquires a runtime, a second `ensure` on
thread 0 changes nothing. -/
theorem claim_C5_witness :
    ((run (initialState false false) [Action.ensure 0 true]).runtimeStateTLS 0).isSome ∧
    Kotlin_initRuntimeIfNeeded (run (initialState false false) [Action.ensure 0 true]) 0 true =
      run (initialState false false) [Action.ensure 0 true] :=
  ⟨by decide, claim_C5_theorem (run (initialState false false) [Action.ensure 0 true]) 0 true
    (by decide)⟩

/-! ## Claim C4: shutdownProcess aborts fatally unless the status is Running -/

/-- C4: when the global status observed by the initial CAS of
`Kotlin_shutdownRuntime` is anything but `kGlobalRuntimeRunning`, the call
aborts at once — the state is exactly the input state with the abort
diagnostic set, so none of the shutdown sequence ran — and the diagnostic is
"must have been initialized" for an uninitialized status and "cannot shutdown
twice" for a shutdown already in progress or completed. -/
theorem claim_C4_theorem (s : ProcState) (tid : Nat)
    (h : s.globalRuntimeStatus ≠ GlobalRuntimeStatus.kGlobalRuntimeRunning) :
    Kotlin_shutdownRuntime s tid =
      abortWith s
        (if s.globalRuntimeStatus = GlobalRuntimeStatus.kGlobalRuntimeUninitialized then
          "Kotlin runtime must have been initialized"
        else "Cannot shutdown Kotlin runtime twice") := by
  cases hs : s.globalRuntimeStatus <;>
    simp [Kotlin_shutdownRuntime, Kotlin_shutdownRuntime_begin, hs, abortWith] at h ⊢

/-- Witness for C4: shutting down the never-started process aborts with the
"must have been initialized" diagnostic, and a second shutdown of an
already-shut-down process aborts with the "twice" diagnostic. -/
theorem claim_C4_witness :
    (initialState false false).globalRuntimeStatus ≠ GlobalRuntimeStatus.kGlobalRuntimeRunning ∧
    Kotlin_shutdownRuntime (initialState false false) 0 =
      abortWith (initialState false false) "Kotlin runtime must have been initialized" ∧
    Kotlin_shutdownRuntime
        (run (initialState false false) [Action.ensure 0 true, Action.shutdownBegin 0,
          Action.shutdownStep]) 0 =
      abortWith
        (run (initialState false false) [Action.ensure 0 true, Action.shutdownBegin 0,
          Action.shutdownStep]) "Cannot shutdown Kotlin runtime twice" := by
  refine ⟨by decide, ?_, ?_⟩
  · have h := claim_C4_theorem (initialState false false) 0 (by decide)
    simpa using h
  · have h := claim_C4_theorem
      (run (initialState false false) [Action.ensure 0 true, Action.shutdownBegin 0,
        Action.shutdownStep]) 0 (by decide)
    have hst : (run (initialState false false) [Action.ensure 0 true, Action.shutdownBegin 0,
        Action.shutdownStep]).globalRuntimeStatus = GlobalRuntimeStatus.kGlobalRuntimeShutdown := by
      decide
    rw [h, hst]
    simp

/-! ## Claim C8: allocation failure is returned, not fatal -/

theorem initRuntime_allocFail_spec (s : ProcState) (tid : Nat)
    (h : s.globalRuntimeStatus ≠ GlobalRuntimeStatus.kGlobalRuntimeShutdown) :
    (initRuntime s tid false).2 = none ∧
    (initRuntime s tid false).1.aborted = s.aborted ∧
    (initRuntime s tid false).1.runtimeStateTLS = s.runtimeStateTLS ∧
    (initRuntime s tid false).1.aliveRuntimesCount = s.aliveRuntimesCount ∧
    (initRuntime s tid false).1.handles = s.handles ∧
    (initRuntime s tid false).1.initializingRuntimesCount = s.initializingRuntimesCount ∧
    (initRuntime s tid false).1.events = s.events ++ [Event.setKonanTerminateHandler] ∧
    ∀ p, countPhase (initRuntime s tid false).1.events p = countPhase s.events p := by
  refine ⟨?_, ?_, ?_, ?_, ?_, ?_, ?_, ?_⟩ <;>
    simp [initRuntime, h, countPhase_append, countPhase]

/-- C8: when allocation of the handle fails inside `initRuntime`, the call
returns `kInvalidRuntime` (`none`) without aborting, and at that point the
thread-local cell, the alive counter, the heap of handles and the (net)
initializing counter are all unchanged; the only recorded action is setting
the terminate handler — in particular no initializer phase has run. -/
theorem claim_C8_theorem (s : ProcState) (tid : Nat)
    (h : s.globalRuntimeStatus ≠ GlobalRuntimeStatus.kGlobalRuntimeShutdown) :
    (initRuntime s tid false).2 = none ∧
    (initRuntime s tid false).1.aborted = s.aborted ∧
    (initRuntime s tid false).1.runtimeStateTLS = s.runtimeStateTLS ∧
    (initRuntime s tid false).1.aliveRuntimesCount = s.aliveRuntimesCount ∧
    (initRuntime s tid false).1.handles = s.handles ∧
    (initRuntime s tid false).1.initializingRuntimesCount = s.initializingRuntimesCount ∧
    (initRuntime s tid false).1.events = s.events ++ [Event.setKonanTerminateHandler] ∧
    ∀ p, countPhase (initRuntime s tid false).1.events p = countPhase s.events p :=
  initRuntime_allocFail_spec s tid h

/-- Witness for C8: allocation failure on the very first `ensure`. -/
theorem claim_C8_witness :
    (initialState false false).globalRuntimeStatus ≠
      GlobalRuntimeStatus.kGlobalRuntimeShutdown ∧
    (initRuntime (initialState false false) 0 false).2 = none ∧
    (initRuntime (initialState false false) 0 false).1.aliveRuntimesCount =
      (initialState false false).aliveRuntimesCount :=
  ⟨by decide, (claim_C8_theorem (initialState false false) 0 (by decide)).1,
    (claim_C8_theorem (initialState false false) 0 (by decide)).2.2.2.1⟩

/-! ## Claim C10: the error path still registers the thread-exit callback -/

/-- C10: when handle allocation fails, `Kotlin_initRuntimeIfNeeded`
nevertheless proceeds to register the thread-exit teardown callback, passing
the still-null thread-local handle (`none`) as the callback argument: the
trace gains the registration event with argument `none`, and no abort
occurs. -/
theorem claim_C10_theorem (s : ProcState) (tid : Nat)
    (h0 : s.aborted = none)
    (h1 : s.globalRuntimeStatus ≠ GlobalRuntimeStatus.kGlobalRuntimeShutdown)
    (h2 : s.runtimeStateTLS tid = none) :
    (Kotlin_initRuntimeIfNeeded s tid false).events =
      s.events ++ [Event.setKonanTerminateHandler, Event.onThreadExitRegistered tid none] ∧
    (Kotlin_initRuntimeIfNeeded s tid false).aborted = none := by
  constructor <;> simp [Kotlin_initRuntimeIfNeeded, initRuntime, isValidRuntime, h0, h1, h2]

/-- Witness for C10: allocation failure on the very first `ensure` of thread
0 still registers the callback with a null argument. -/
theorem claim_C10_witness :
    (initialState false false).aborted = none ∧
    (Kotlin_initRuntimeIfNeeded (initialState false false) 0 false).events =
      (initialState false false).events ++
        [Event.setKonanTerminateHandler, Event.onThreadExitRegistered 0 none] :=
  ⟨by decide,
    (claim_C10_theorem (initialState false false) 0 (by decide) (by decide) (by decide)).1⟩

/-! ## Claim C6: teardown releases resources in the specified order -/

/-- C6: tearing down a `kRunning` handle performs, in exactly this order:
mark `kDestroying` (before anything is released), restore the
memory-manager state, decrement the alive counter, run `DeinitThreadLocal`,
run `DeinitGlobal` iff the decrement reached 0, release the worker, fully
deinitialize the memory state, destruct the handle object, and last the
OS-thread-local cleanup keyed by the worker id saved before destruction —
at which point the handle object no longer exists in the heap. -/
theorem claim_C6_theorem (s : ProcState) (addr : Nat) (h : RuntimeState)
    (hh : s.handles[addr]? = some (some h))
    (hrun : h.status = RuntimeStatus.kRunning) :
    (deinitRuntime s addr).events =
      s.events ++
        [Event.setDestroying addr,
         Event.restoreMemory h.memoryState,
         Event.aliveDecremented (s.aliveRuntimesCount - 1),
         Event.phaseRun DEINIT_THREAD_LOCAL_GLOBALS h.memoryState] ++
        (if s.aliveRuntimesCount - 1 = 0 then
          [Event.phaseRun DEINIT_GLOBALS h.memoryState]
        else []) ++
        [Event.workerDeinit h.worker,
         Event.deinitMemory h.memoryState,
         Event.destructInstance addr,
         Event.workerDestroyThreadData (GetWorkerId h.worker)] ∧
    (deinitRuntime s addr).handles[addr]? = some none ∧
    (deinitRuntime s addr).aliveRuntimesCount = s.aliveRuntimesCount - 1 ∧
    (deinitRuntime s addr).aborted = s.aborted := by
  have hlt : addr < s.handles.length := by
    rcases List.getElem?_eq_some_iff.mp hh with ⟨hl, _⟩
    exact hl
  refine ⟨?_, ?_, ?_, ?_⟩ <;>
    simp [deinitRuntime, hh, hrun, List.set_set, List.getElem?_set_self hlt]

/-- Witness for C6: tearing down thread 0's handle while thread 1's is still
alive (so the decrement does not reach 0). -/
theorem claim_C6_witness :
    (run (initialState false false) [Action.ensure 0 true, Action.ensure 1 true]).handles[0]? =
      some (some { memoryState := 0, worker := 0, status := RuntimeStatus.kRunning }) ∧
    (deinitRuntime (run (initialState false false)
        [Action.ensure 0 true, Action.ensure 1 true]) 0).aliveRuntimesCount =
      (run (initialState false false)
        [Action.ensure 0 true, Action.ensure 1 true]).aliveRuntimesCount - 1 ∧
    (deinitRuntime (run (initialState false false)
        [Action.ensure 0 true, Action.ensure 1 true]) 0).handles[0]? = some none :=
  ⟨by decide,
    (claim_C6_theorem (run (initialState false false)
        [Action.ensure 0 true, Action.ensure 1 true]) 0
        { memoryState := 0, worker := 0, status := RuntimeStatus.kRunning }
        (by decide) (by decide)).2.2.1,
    (claim_C6_theorem (run (initialState false false)
        [Action.ensure 0 true, Action.ensure 1 true]) 0
        { memoryState := 0, worker := 0, status := RuntimeStatus.kRunning }
        (by decide) (by decide)).2.1⟩

/-! ## Claim C2: the leak-check step and the duplicated guard at line 233 -/

/-- C2 (divergence witness): the source's leak-check gate at line 233 reads
`Kotlin_memoryLeakCheckerEnabled() || Kotlin_memoryLeakCheckerEnabled()`, so
with only the cleaner leak checker enabled (`g_checkLeakedCleaners = true`,
`g_checkLeaks = false`) and another runtime still alive at shutdown, the
leak-check step is skipped entirely: shutdown completes with no abort, the
workers are never awaited, and the surviving runtime goes unreported — against
the claim that the check runs whenever either checker is enabled. -/
theorem claim_C2_theorem :
    Kotlin_cleanersLeakCheckerEnabled (run (initialState false false)
      [Action.setCleanersLeakChecker true, Action.ensure 0 true, Action.ensure 1 true,
       Action.shutdownBegin 0, Action.shutdownStep]) = true ∧
    Kotlin_memoryLeakCheckerEnabled (run (initialState false false)
      [Action.setCleanersLeakChecker true, Action.ensure 0 true, Action.ensure 1 true,
       Action.shutdownBegin 0, Action.shutdownStep]) = false ∧
    (run (initialState false false)
      [Action.setCleanersLeakChecker true, Action.ensure 0 true, Action.ensure 1 true,
       Action.shutdownBegin 0, Action.shutdownStep]).aborted = none ∧
    (run (initialState false false)
      [Action.setCleanersLeakChecker true, Action.ensure 0 true, Action.ensure 1 true,
       Action.shutdownBegin 0, Action.shutdownStep]).aliveRuntimesCount = 1 ∧
    Event.waitNativeWorkersTermination ∉ (run (initialState false false)
      [Action.setCleanersLeakChecker true, Action.ensure 0 true, Action.ensure 1 true,
       Action.shutdownBegin 0, Action.shutdownStep]).events ∧
    (run (initialState false false)
      [Action.setCleanersLeakChecker true, Action.ensure 0 true, Action.ensure 1 true,
       Action.shutdownBegin 0, Action.shutdownStep]).globalRuntimeStatus =
      GlobalRuntimeStatus.kGlobalRuntimeShutdown := by
  refine ⟨by decide, by decide, by decide, by decide, by decide, by decide⟩

/-! ## Claim C1: what happens to ensureRuntime once shutdown has begun -/

/-- C1 is refuted as stated: after `shutdownBegin` the global status has left
`Running` (it is `ShuttingDown`), yet a subsequent `ensure` on a fresh thread
does not abort — it constructs a second live handle. -/
theorem claim_C1_counterexample :
    (run (initialState false false)
      [Action.ensure 0 true, Action.shutdownBegin 0]).globalRuntimeStatus =
      GlobalRuntimeStatus.kGlobalRuntimeShuttingDown ∧
    (run (initialState false false)
      [Action.ensure 0 true, Action.shutdownBegin 0]).handles.length = 1 ∧
    (run (initialState false false)
      [Action.ensure 0 true, Action.shutdownBegin 0, Action.ensure 1 true]).aborted = none ∧
    (run (initialState false false)
      [Action.ensure 0 true, Action.shutdownBegin 0, Action.ensure 1 true]).handles.length = 2 ∧
    (run (initialState false false)
      [Action.ensure 0 true, Action.shutdownBegin 0, Action.ensure 1 true]).runtimeStateTLS 1 =
      some 1 := by
  refine ⟨by decide, by decide, by decide, by decide, by decide⟩

/-! ## Claim C3: how often the global phases run -/

/-- C3 is refuted as stated: in the execution ensure-teardown-ensure-teardown
on one thread the process never aborts, yet the global-scope init phase runs
twice (once per transition of the alive count from 0 to 1) and the
global-scope deinit phase runs twice — not "exactly once in total". -/
theorem claim_C3_counterexample :
    (run (initialState false false)
      [Action.ensure 0 true, Action.teardown 0, Action.ensure 0 true,
       Action.teardown 0]).aborted = none ∧
    countPhase (run (initialState false false)
      [Action.ensure 0 true, Action.teardown 0, Action.ensure 0 true,
       Action.teardown 0]).events INIT_GLOBALS = 2 ∧
    countPhase (run (initialState false false)
      [Action.ensure 0 true, Action.teardown 0, Action.ensure 0 true,
       Action.teardown 0]).events DEINIT_GLOBALS = 2 := by
  refine ⟨by decide, by decide, by decide⟩

/-! ## Normal forms of the two core operations -/

/-- The success path of `initRuntime` with a valid allocation, written as one
explicit state: holds whenever the observed status is not `Shutdown` and the
calling thread has no handle. -/
theorem initRuntime_success_spec (s : ProcState) (tid : Nat)
    (h1 : s.globalRuntimeStatus ≠ GlobalRuntimeStatus.kGlobalRuntimeShutdown)
    (h2 : s.runtimeStateTLS tid = none) :
    initRuntime s tid true =
      ({ s with
          globalRuntimeStatus :=
            if s.globalRuntimeStatus = GlobalRuntimeStatus.kGlobalRuntimeUninitialized then
              GlobalRuntimeStatus.kGlobalRuntimeRunning
            else s.globalRuntimeStatus
          runtimeStateTLS := fun t =>
            if t = tid then some s.handles.length else s.runtimeStateTLS t
          handles := s.handles ++
            [some { memoryState := s.nextMemoryState, worker := s.nextWorker,
                    status := RuntimeStatus.kRunning }]
          nextMemoryState := s.nextMemoryState + 1
          nextWorker := s.nextWorker + 1
          aliveRuntimesCount := s.aliveRuntimesCount + 1
          events := s.events ++
            [Event.setKonanTerminateHandler,
             Event.aliveIncremented (s.aliveRuntimesCount + 1)] ++
            (if s.aliveRuntimesCount + 1 = 1 then
              [Event.consoleInit] ++
              (if s.konanObjcInterop then [Event.objcExportInit] else []) ++
              [Event.phaseRun INIT_GLOBALS s.nextMemoryState]
            else []) ++
            [Event.phaseRun INIT_THREAD_LOCAL_GLOBALS s.nextMemoryState] },
        some s.handles.length) := by
  simp [initRuntime, h1, isValidRuntime, h2]

/-- The running-handle path of `deinitRuntime`, written as one explicit
state. -/
theorem deinitRuntime_spec (s : ProcState) (addr : Nat) (h : RuntimeState)
    (hh : s.handles[addr]? = some (some h)) (hrun : h.status = RuntimeStatus.kRunning) :
    deinitRuntime s addr =
      { s with
        aliveRuntimesCount := s.aliveRuntimesCount - 1
        handles := s.handles.set addr none
        events := s.events ++
          [Event.setDestroying addr,
           Event.restoreMemory h.memoryState,
           Event.aliveDecremented (s.aliveRuntimesCount - 1),
           Event.phaseRun DEINIT_THREAD_LOCAL_GLOBALS h.memoryState] ++
          (if s.aliveRuntimesCount - 1 = 0 then
            [Event.phaseRun DEINIT_GLOBALS h.memoryState]
          else []) ++
          [Event.workerDeinit h.worker,
           Event.deinitMemory h.memoryState,
           Event.destructInstance addr,
           Event.workerDestroyThreadData (GetWorkerId h.worker)] } := by
  simp [deinitRuntime, hh, hrun, List.set_set]

/-- `deinitRuntime` on anything but a live `kRunning` handle is the fatal
assert. -/
theorem deinitRuntime_abort (s : ProcState) (addr : Nat)
    (hh : ∀ h : RuntimeState, s.handles[addr]? = some (some h) →
      h.status ≠ RuntimeStatus.kRunning) :
    deinitRuntime s addr = abortWith s "Runtime must be in the running state" := by
  unfold deinitRuntime
  cases heq : s.handles[addr]? with
  | none => rfl
  | some o =>
    cases o with
    | none => rfl
    | some h => simp [heq, hh h heq]

/-! ## The inductive invariant -/

theorem inv_initial (dbg oi : Bool) : Inv (initialState dbg oi) := by
  refine ⟨rfl, ?_, rfl, rfl, rfl⟩
  intro h hm
  simp [initialState] at hm

theorem deinitRuntime_inv (s : ProcState) (addr : Nat) (hInv : Inv s)
    (hab : (deinitRuntime s addr).aborted = none) :
    Inv (deinitRuntime s addr) := by
  obtain ⟨e1, e2, e3, e4, e5⟩ := hInv
  cases heq : s.handles[addr]? with
  | none =>
    rw [deinitRuntime_abort s addr (by intro h hh2; rw [heq] at hh2; exact absurd hh2 (by simp))]
      at hab
    simp [abortWith] at hab
  | some o =>
    cases o with
    | none =>
      rw [deinitRuntime_abort s addr (by intro h hh2; rw [heq] at hh2; simp at hh2)] at hab
      simp [abortWith] at hab
    | some h =>
      by_cases hrun : h.status = RuntimeStatus.kRunning
      · rw [deinitRuntime_spec s addr h heq hrun]
        have hlt : addr < s.handles.length := by
          rcases List.getElem?_eq_some_iff.mp heq with ⟨hl, _⟩
          exact hl
        have hpres : presentOf (s.handles.set addr none) + 1 = presentOf s.handles :=
          presentOf_set_none s.handles addr h heq
        have hple := presentOf_le_length s.handles
        unfold Inv
        simp only [INIT_GLOBALS, INIT_THREAD_LOCAL_GLOBALS, DEINIT_THREAD_LOCAL_GLOBALS,
          DEINIT_GLOBALS] at e3 e4 e5 ⊢
        refine ⟨?_, ?_, ?_, ?_, ?_⟩
        · omega
        · intro h2 hm
          rcases List.mem_or_eq_of_mem_set hm with hm2 | hm2
          · exact e2 h2 hm2
          · simp at hm2
        · simp only [countPhase_append, countPhase_if, List.length_set]
          simp [countPhase]
          exact e3
        · simp only [countPhase_append, countPhase_if, List.length_set]
          simp [countPhase]
          omega
        · simp only [countPhase_append, countPhase_if]
          simp [countPhase]
          rw [if_neg (by omega)] at e5
          split_ifs with hc hz hz <;> omega
      · rw [deinitRuntime_abort s addr ?_] at hab
        · simp [abortWith] at hab
        · intro h2 hh2
          rw [heq] at hh2
          simp at hh2
          subst hh2
          exact hrun

/-- `Inv` only reads the alive counter, the heap and the phase counts of the
trace, so it transfers between states agreeing on those. -/
theorem inv_of_eq (s t : ProcState) (hal : t.aliveRuntimesCount = s.aliveRuntimesCount)
    (hh : t.handles = s.handles) (hev : ∀ p, countPhase t.events p = countPhase s.events p)
    (hInv : Inv s) : Inv t := by
  unfold Inv at hInv ⊢
  simp only [hal, hh, hev]
  exact hInv

theorem initRuntime_true_inv (s : ProcState) (tid : Nat) (hInv : Inv s)
    (h1 : s.globalRuntimeStatus ≠ GlobalRuntimeStatus.kGlobalRuntimeShutdown)
    (h2 : s.runtimeStateTLS tid = none) :
    Inv (initRuntime s tid true).1 := by
  obtain ⟨e1, e2, e3, e4, e5⟩ := hInv
  rw [initRuntime_success_spec s tid h1 h2]
  have hple := presentOf_le_length s.handles
  have hpa : presentOf (s.handles ++
      [some { memoryState := s.nextMemoryState, worker := s.nextWorker,
              status := RuntimeStatus.kRunning }]) = presentOf s.handles + 1 := by
    simp [presentOf_append, presentOf_cons, presentOf_nil]
  unfold Inv
  simp only [INIT_GLOBALS, INIT_THREAD_LOCAL_GLOBALS, DEINIT_THREAD_LOCAL_GLOBALS,
    DEINIT_GLOBALS] at e3 e4 e5 ⊢
  refine ⟨?_, ?_, ?_, ?_, ?_⟩
  · simp only [hpa]
    omega
  · intro hx hm
    simp only [List.mem_append, List.mem_singleton] at hm
    rcases hm with hm | hm
    · exact e2 hx hm
    · simp only [Option.some.injEq] at hm
      rw [hm]
  · simp only [countPhase_append, countPhase_if, List.length_append]
    split_ifs <;> simp [countPhase] <;> omega
  · simp only [countPhase_append, countPhase_if, List.length_append, hpa]
    split_ifs <;> simp [countPhase] <;> omega
  · have hind : (if presentOf s.handles + 1 = 0 then (0 : Nat) else 1) = 1 := by simp
    simp only [countPhase_append, countPhase_if, hpa, hind]
    rcases Nat.eq_zero_or_pos (presentOf s.handles) with hz | hz
    · rw [if_pos hz] at e5
      have hc1 : s.aliveRuntimesCount + 1 = 1 := by omega
      rw [if_pos hc1]
      split_ifs <;> simp [countPhase] <;> omega
    · rw [if_neg (by omega)] at e5
      have hc1 : ¬s.aliveRuntimesCount + 1 = 1 := by omega
      rw [if_neg hc1]
      simp [countPhase]
      omega

theorem ensure_inv (s : ProcState) (tid : Nat) (ok : Bool) (hInv : Inv s)
    (hab : (Kotlin_initRuntimeIfNeeded s tid ok).aborted = none) :
    Inv (Kotlin_initRuntimeIfNeeded s tid ok) := by
  by_cases hv : (s.runtimeStateTLS tid).isSome
  · rw [Kotlin_initRuntimeIfNeeded_noop s tid ok hv]
    exact hInv
  · have h2 : s.runtimeStateTLS tid = none := by
      cases hx : s.runtimeStateTLS tid
      · rfl
      · rw [hx] at hv; simp at hv
    by_cases h1 : s.globalRuntimeStatus = GlobalRuntimeStatus.kGlobalRuntimeShutdown
    · exfalso
      rw [Kotlin_initRuntimeIfNeeded] at hab
      simp only [isValidRuntime, hv, if_false] at hab
      rw [initRuntime] at hab
      simp only [h1, if_true, if_pos] at hab
      simp [abortWith] at hab
    · cases ok with
      | false =>
        rw [Kotlin_initRuntimeIfNeeded]
        simp only [isValidRuntime, hv, Bool.false_eq_true, if_false]
        obtain ⟨r1, r2, r3, r4, r5, r6, r7, r8⟩ := initRuntime_allocFail_spec s tid h1
        split
        · exact inv_of_eq s _ r4 r5 r8 ⟨hInv.1, hInv.2.1, hInv.2.2.1, hInv.2.2.2.1,
            hInv.2.2.2.2⟩
        · refine inv_of_eq s _ r4 r5 ?_ hInv
          intro p
          rw [countPhase_append, r8 p]
          simp [countPhase]
      | true =>
        rw [Kotlin_initRuntimeIfNeeded]
        simp only [isValidRuntime, h2, Option.isSome_none, Bool.false_eq_true, if_false]
        have hX := initRuntime_true_inv s tid hInv h1 h2
        split
        · exact hX
        · refine inv_of_eq (initRuntime s tid true).1 _ rfl rfl ?_ hX
          intro p
          rw [countPhase_append]
          simp only [countPhase, countPhase_nil]
          omega

theorem begin_inv (s : ProcState) (tid : Nat) (hInv : Inv s)
    (hab : (Kotlin_shutdownRuntime_begin s tid).aborted = none) :
    Inv (Kotlin_shutdownRuntime_begin s tid) := by
  unfold Kotlin_shutdownRuntime_begin at hab ⊢
  cases hs : s.globalRuntimeStatus with
  | kGlobalRuntimeRunning =>
    simp only [hs] at hab ⊢
    cases htls : s.runtimeStateTLS tid with
    | none =>
      simp only [htls] at hab
      simp [abortWith] at hab
    | some addr =>
      simp only [htls] at hab ⊢
      refine inv_of_eq s _ rfl rfl ?_ hInv
      intro p
      rw [countPhase_append, countPhase_append, countPhase_if]
      split <;> simp [countPhase]
  | kGlobalRuntimeShuttingDown =>
    simp only [hs] at hab
    simp [abortWith] at hab
  | kGlobalRuntimeShutdown =>
    simp only [hs] at hab
    simp [abortWith] at hab
  | kGlobalRuntimeUninitialized =>
    simp only [hs] at hab
    simp [abortWith] at hab

theorem shutdownDeinitSelf_inv (s : ProcState) (tid : Nat) (addr : Nat) (hInv : Inv s)
    (hab : (shutdownDeinitSelf s tid addr).aborted = none) :
    Inv (shutdownDeinitSelf s tid addr) := by
  unfold shutdownDeinitSelf at hab ⊢
  have hInv1 : Inv { s with shutdownFrame := none } :=
    inv_of_eq s _ rfl rfl (fun p => rfl) hInv
  cases habd : (deinitRuntime { s with shutdownFrame := none } addr).aborted with
  | some m =>
    simp only [habd, Option.isSome_some, if_true] at hab
    exact absurd hab (by simp)
  | none =>
    have hI := deinitRuntime_inv _ addr hInv1 habd
    simp only [habd, Option.isSome_none, Bool.false_eq_true, if_false] at hab ⊢
    exact inv_of_eq _ _ rfl rfl (fun p => rfl) hI

theorem tail_inv (s : ProcState) (tid : Nat) (addr : Nat) (hInv : Inv s)
    (hab : (Kotlin_shutdownRuntime_tail s tid addr).aborted = none) :
    Inv (Kotlin_shutdownRuntime_tail s tid addr) := by
  unfold Kotlin_shutdownRuntime_tail at hab ⊢
  by_cases hspin : s.initializingRuntimesCount > 0
  · simp only [hspin, if_true] at hab ⊢
    exact hInv
  · simp only [hspin, if_false] at hab ⊢
    by_cases hleak : (Kotlin_memoryLeakCheckerEnabled s || Kotlin_memoryLeakCheckerEnabled s)
      = true
    · simp only [hleak, if_true] at hab ⊢
      by_cases hneg : s.aliveRuntimesCount - 1 < 0
      · simp only [hneg, if_true] at hab
        simp [abortWith] at hab
      · simp only [hneg, if_false] at hab ⊢
        by_cases hpos : s.aliveRuntimesCount - 1 > 0
        · simp only [hpos, if_true] at hab
          simp [abortWith] at hab
        · simp only [hpos, if_false] at hab ⊢
          refine shutdownDeinitSelf_inv _ tid addr ?_ hab
          refine inv_of_eq s _ rfl rfl ?_ hInv
          intro p
          rw [countPhase_append]
          simp [countPhase]
    · simp only [hleak, Bool.false_eq_true, if_false] at hab ⊢
      exact shutdownDeinitSelf_inv s tid addr hInv hab

theorem finish_inv (s : ProcState) (hInv : Inv s)
    (hab : (Kotlin_shutdownRuntime_finish s).aborted = none) :
    Inv (Kotlin_shutdownRuntime_finish s) := by
  unfold Kotlin_shutdownRuntime_finish at hab ⊢
  cases hf : s.shutdownFrame with
  | none =>
    simp only [hf]
    exact hInv
  | some fr =>
    obtain ⟨tid, addr, casDone⟩ := fr
    simp only [hf] at hab ⊢
    cases casDone with
    | true =>
      simp only [if_true] at hab ⊢
      exact tail_inv s tid addr hInv hab
    | false =>
      simp only [Bool.false_eq_true, if_false] at hab ⊢
      by_cases hst : s.globalRuntimeStatus = GlobalRuntimeStatus.kGlobalRuntimeShuttingDown
      · simp only [hst, if_true] at hab ⊢
        exact tail_inv _ tid addr (inv_of_eq s _ rfl rfl (fun p => rfl) hInv) hab
      · simp only [hst, if_false] at hab
        simp [abortWith] at hab

theorem step_frozen (s : ProcState) (a : Action) (h : s.aborted.isSome) : step s a = s := by
  simp [step, h]

theorem step_inv (s : ProcState) (a : Action) (hInv : Inv s)
    (hab : (step s a).aborted = none) : Inv (step s a) := by
  by_cases habs : s.aborted.isSome
  · rw [step_frozen s a habs]
    exact hInv
  · have hs2 : s.aborted.isSome = false := by simpa using habs
    unfold step at hab ⊢
    simp only [hs2, Bool.false_eq_true, if_false] at hab ⊢
    cases a with
    | ensure tid ok => exact ensure_inv s tid ok hInv hab
    | teardown tid =>
      unfold Kotlin_deinitRuntimeIfNeeded at hab ⊢
      cases htls : s.runtimeStateTLS tid with
      | none =>
        simp only [htls]
        exact hInv
      | some addr =>
        simp only [htls] at hab ⊢
        cases habd : (deinitRuntime s addr).aborted with
        | some m =>
          simp only [habd, Option.isSome_some, if_true] at hab
          exact absurd hab (by simp)
        | none =>
          have hI := deinitRuntime_inv s addr hInv habd
          simp only [habd, Option.isSome_none, Bool.false_eq_true, if_false] at hab ⊢
          exact inv_of_eq _ _ rfl rfl (fun p => rfl) hI
    | shutdownBegin tid => exact begin_inv s tid hInv hab
    | shutdownStep => exact finish_inv s hInv hab
    | setMemoryLeakChecker v => exact inv_of_eq s _ rfl rfl (fun p => rfl) hInv
    | setCleanersLeakChecker v => exact inv_of_eq s _ rfl rfl (fun p => rfl) hInv

theorem run_inv (as : List Action) (s : ProcState) (h : s.aborted = none → Inv s)
    (hab : (run s as).aborted = none) : Inv (run s as) := by
  induction as generalizing s with
  | nil => exact h hab
  | cons a rest ih =>
    have hstep : (step s a).aborted = none → Inv (step s a) := by
      intro h2
      by_cases habs : s.aborted.isSome
      · rw [step_frozen s a habs] at h2 ⊢
        exact h h2
      · have hs0 : s.aborted = none := Option.not_isSome_iff_eq_none.mp habs
        exact step_inv s a (h hs0) h2
    exact ih (step s a) hstep hab
/-! ## Claim C9: the alive counter tracks the live handles exactly -/

/-- C9: in every reachable non-aborted state of any interleaved execution,
`aliveRuntimesCount` equals the number of handles currently between their
construction and their destruction (all of which sit in their `kRunning`
span), so in particular it is never negative, every decrement was matched by
a prior increment, and at full quiescence (no live handle) it is exactly 0. -/
theorem claim_C9_theorem (dbg oi : Bool) (as : List Action)
    (hab : (run (initialState dbg oi) as).aborted = none) :
    (run (initialState dbg oi) as).aliveRuntimesCount =
      (presentOf (run (initialState dbg oi) as).handles : Int) ∧
    0 ≤ (run (initialState dbg oi) as).aliveRuntimesCount ∧
    (∀ h : RuntimeState, some h ∈ (run (initialState dbg oi) as).handles →
      h.status = RuntimeStatus.kRunning) := by
  have hI := run_inv as (initialState dbg oi) (fun _ => inv_initial dbg oi) hab
  obtain ⟨e1, e2, _, _, _⟩ := hI
  refine ⟨e1, ?_, e2⟩
  rw [e1]
  exact Int.natCast_nonneg _

/-- Witness for C9: a three-thread execution with one teardown and an
in-flight shutdown begun. -/
theorem claim_C9_witness :
    (run (initialState false false) [Action.ensure 0 true, Action.ensure 1 true,
      Action.ensure 2 true, Action.teardown 1, Action.shutdownBegin 0]).aborted = none ∧
    (run (initialState false false) [Action.ensure 0 true, Action.ensure 1 true,
      Action.ensure 2 true, Action.teardown 1, Action.shutdownBegin 0]).aliveRuntimesCount =
      (presentOf (run (initialState false false) [Action.ensure 0 true, Action.ensure 1 true,
        Action.ensure 2 true, Action.teardown 1, Action.shutdownBegin 0]).handles : Int) :=
  ⟨by decide,
    (claim_C9_theorem false false [Action.ensure 0 true, Action.ensure 1 true,
      Action.ensure 2 true, Action.teardown 1, Action.shutdownBegin 0] (by decide)).1⟩

/-! ## Claim C3 (amended): global phases run once per live-handle epoch -/

/-- C3 as amended by its counterexample: in every reachable non-aborted state
of any interleaved execution, the thread-local init phase has run exactly
once per handle construction and the thread-local deinit phase exactly once
per handle teardown, while the global init phase has run exactly once more
than the global deinit phase while any handle is alive, and exactly as often
as it once no handle is alive — i.e. each phase runs once per transition of
the alive count between 0 and positive, not once per process. -/
theorem claim_C3_theorem (dbg oi : Bool) (as : List Action)
    (hab : (run (initialState dbg oi) as).aborted = none) :
    countPhase (run (initialState dbg oi) as).events INIT_THREAD_LOCAL_GLOBALS =
      (run (initialState dbg oi) as).handles.length ∧
    countPhase (run (initialState dbg oi) as).events DEINIT_THREAD_LOCAL_GLOBALS =
      (run (initialState dbg oi) as).handles.length -
        presentOf (run (initialState dbg oi) as).handles ∧
    countPhase (run (initialState dbg oi) as).events INIT_GLOBALS =
      countPhase (run (initialState dbg oi) as).events DEINIT_GLOBALS +
        (if presentOf (run (initialState dbg oi) as).handles = 0 then 0 else 1) := by
  have hI := run_inv as (initialState dbg oi) (fun _ => inv_initial dbg oi) hab
  exact ⟨hI.2.2.1, hI.2.2.2.1, hI.2.2.2.2⟩

/-- Witness for C3: after ensure-teardown-ensure-teardown the thread-local
phases ran twice (once per construction/teardown) and global init ran as
often as global deinit. -/
theorem claim_C3_witness :
    (run (initialState false false) [Action.ensure 0 true, Action.teardown 0,
      Action.ensure 0 true, Action.teardown 0]).aborted = none ∧
    countPhase (run (initialState false false) [Action.ensure 0 true, Action.teardown 0,
      Action.ensure 0 true, Action.teardown 0]).events INIT_GLOBALS =
      countPhase (run (initialState false false) [Action.ensure 0 true, Action.teardown 0,
        Action.ensure 0 true, Action.teardown 0]).events DEINIT_GLOBALS +
        (if presentOf (run (initialState false false) [Action.ensure 0 true, Action.teardown 0,
          Action.ensure 0 true, Action.teardown 0]).handles = 0 then 0 else 1) :=
  ⟨by decide,
    (claim_C3_theorem false false [Action.ensure 0 true, Action.teardown 0,
      Action.ensure 0 true, Action.teardown 0] (by decide)).2.2⟩
/-! ## Once the Shutdown status is reached, it is absorbing and no handle is
ever constructed again -/

theorem deinitRuntime_preserves (s : ProcState) (addr : Nat) :
    (deinitRuntime s addr).globalRuntimeStatus = s.globalRuntimeStatus ∧
    (deinitRuntime s addr).handles.length = s.handles.length := by
  unfold deinitRuntime
  cases s.handles[addr]? with
  | none => exact ⟨rfl, rfl⟩
  | some o =>
    cases o with
    | none => exact ⟨rfl, rfl⟩
    | some h =>
      by_cases hst : h.status = RuntimeStatus.kRunning <;> simp [hst, abortWith]

theorem shutdownDeinitSelf_preserves (s : ProcState) (tid : Nat) (addr : Nat) :
    (shutdownDeinitSelf s tid addr).globalRuntimeStatus = s.globalRuntimeStatus ∧
    (shutdownDeinitSelf s tid addr).handles.length = s.handles.length := by
  unfold shutdownDeinitSelf
  obtain ⟨d1, d2⟩ := deinitRuntime_preserves { s with shutdownFrame := none } addr
  dsimp only at d1 d2 ⊢
  constructor <;> split <;> simp [d1, d2]

theorem tail_preserves (s : ProcState) (tid : Nat) (addr : Nat) :
    (Kotlin_shutdownRuntime_tail s tid addr).globalRuntimeStatus = s.globalRuntimeStatus ∧
    (Kotlin_shutdownRuntime_tail s tid addr).handles.length = s.handles.length := by
  unfold Kotlin_shutdownRuntime_tail
  by_cases hspin : s.initializingRuntimesCount > 0
  · simp [hspin]
  · simp only [hspin, if_false]
    by_cases hleak : (Kotlin_memoryLeakCheckerEnabled s || Kotlin_memoryLeakCheckerEnabled s)
      = true
    · simp only [hleak, if_true]
      by_cases hneg : s.aliveRuntimesCount - 1 < 0
      · simp [hneg, abortWith]
      · simp only [hneg, if_false]
        by_cases hpos : s.aliveRuntimesCount - 1 > 0
        · simp [hpos, abortWith]
        · simp only [hpos, if_false]
          obtain ⟨t1, t2⟩ := shutdownDeinitSelf_preserves
            { s with events := s.events ++ [Event.waitNativeWorkersTermination] } tid addr
          exact ⟨t1, t2⟩
    · simp only [hleak, Bool.false_eq_true, if_false]
      exact shutdownDeinitSelf_preserves s tid addr

theorem finish_absorb (s : ProcState)
    (h : s.globalRuntimeStatus = GlobalRuntimeStatus.kGlobalRuntimeShutdown) :
    (Kotlin_shutdownRuntime_finish s).globalRuntimeStatus =
      GlobalRuntimeStatus.kGlobalRuntimeShutdown ∧
    (Kotlin_shutdownRuntime_finish s).handles.length = s.handles.length := by
  unfold Kotlin_shutdownRuntime_finish
  cases s.shutdownFrame with
  | none => exact ⟨h, rfl⟩
  | some fr =>
    obtain ⟨tid, addr, casDone⟩ := fr
    cases casDone with
    | false =>
      have hne : ¬s.globalRuntimeStatus = GlobalRuntimeStatus.kGlobalRuntimeShuttingDown := by
        rw [h]
        intro hcontra
        exact absurd hcontra (by simp)
      simp only [Bool.false_eq_true, if_false, hne, abortWith]
      exact ⟨h, by simp⟩
    | true =>
      simp only [if_true]
      obtain ⟨t1, t2⟩ := tail_preserves s tid addr
      exact ⟨by rw [t1, h], t2⟩

theorem ensure_absorb (s : ProcState) (tid : Nat) (ok : Bool)
    (h : s.globalRuntimeStatus = GlobalRuntimeStatus.kGlobalRuntimeShutdown) :
    (Kotlin_initRuntimeIfNeeded s tid ok).globalRuntimeStatus =
      GlobalRuntimeStatus.kGlobalRuntimeShutdown ∧
    (Kotlin_initRuntimeIfNeeded s tid ok).handles.length = s.handles.length := by
  unfold Kotlin_initRuntimeIfNeeded initRuntime
  by_cases hv : isValidRuntime s tid = true
  · simp only [hv, if_true]
    exact ⟨h, by simp⟩
  · simp only [hv, Bool.false_eq_true, if_false, h, if_true, abortWith]
    simp

theorem teardown_preserves (s : ProcState) (tid : Nat) :
    (Kotlin_deinitRuntimeIfNeeded s tid).globalRuntimeStatus = s.globalRuntimeStatus ∧
    (Kotlin_deinitRuntimeIfNeeded s tid).handles.length = s.handles.length := by
  unfold Kotlin_deinitRuntimeIfNeeded
  cases s.runtimeStateTLS tid with
  | none => exact ⟨rfl, rfl⟩
  | some addr =>
    obtain ⟨d1, d2⟩ := deinitRuntime_preserves s addr
    constructor <;> dsimp only <;> split <;> simp [d1, d2]

theorem step_absorb (s : ProcState) (a : Action)
    (h : s.globalRuntimeStatus = GlobalRuntimeStatus.kGlobalRuntimeShutdown) :
    (step s a).globalRuntimeStatus = GlobalRuntimeStatus.kGlobalRuntimeShutdown ∧
    (step s a).handles.length = s.handles.length := by
  by_cases habs : s.aborted.isSome
  · rw [step_frozen s a habs]
    exact ⟨h, rfl⟩
  · have hs2 : s.aborted.isSome = false := by simpa using habs
    cases a with
    | ensure tid ok =>
      simp only [step, hs2, Bool.false_eq_true, if_false]
      exact ensure_absorb s tid ok h
    | teardown tid =>
      simp only [step, hs2, Bool.false_eq_true, if_false]
      obtain ⟨t1, t2⟩ := teardown_preserves s tid
      exact ⟨by rw [t1, h], t2⟩
    | shutdownBegin tid =>
      simp only [step, hs2, Bool.false_eq_true, if_false]
      unfold Kotlin_shutdownRuntime_begin
      rw [h]
      exact ⟨h, rfl⟩
    | shutdownStep =>
      simp only [step, hs2, Bool.false_eq_true, if_false]
      exact finish_absorb s h
    | setMemoryLeakChecker v =>
      simp only [step, hs2, Bool.false_eq_true, if_false]
      exact ⟨h, rfl⟩
    | setCleanersLeakChecker v =>
      simp only [step, hs2, Bool.false_eq_true, if_false]
      exact ⟨h, rfl⟩

theorem run_absorb (as : List Action) (s : ProcState)
    (h : s.globalRuntimeStatus = GlobalRuntimeStatus.kGlobalRuntimeShutdown) :
    (run s as).globalRuntimeStatus = GlobalRuntimeStatus.kGlobalRuntimeShutdown ∧
    (run s as).handles.length = s.handles.length := by
  induction as generalizing s with
  | nil => exact ⟨h, rfl⟩
  | cons a rest ih =>
    obtain ⟨h1, h2⟩ := step_absorb s a h
    obtain ⟨h3, h4⟩ := ih (step s a) h1
    refine ⟨h3, ?_⟩
    show (run (step s a) rest).handles.length = s.handles.length
    rw [h4, h2]
/-- C1 as amended by its counterexample: the guarantee holds from the
`Shutdown` status on (the second CAS of the shutdown sequence), not already
from `ShuttingDown`.  Once the global status is `kGlobalRuntimeShutdown`, it
stays `kGlobalRuntimeShutdown` through every further interleaving and the
heap of handles never grows — no `ensureRuntime` call ever constructs a new
per-thread runtime handle — and for a thread without a live handle the
construction path aborts fatally with the "was shut down" diagnostic. -/
theorem claim_C1_theorem (s : ProcState) (as : List Action) (tid : Nat) (allocOk : Bool)
    (hshut : s.globalRuntimeStatus = GlobalRuntimeStatus.kGlobalRuntimeShutdown) :
    (run s as).globalRuntimeStatus = GlobalRuntimeStatus.kGlobalRuntimeShutdown ∧
    (run s as).handles.length = s.handles.length ∧
    (s.runtimeStateTLS tid = none →
      (Kotlin_initRuntimeIfNeeded s tid allocOk).aborted =
        some "Kotlin runtime was shut down. Cannot create new runtimes") := by
  obtain ⟨h1, h2⟩ := run_absorb as s hshut
  refine ⟨h1, h2, ?_⟩
  intro htls
  have hv : isValidRuntime s tid = false := by simp [isValidRuntime, htls]
  unfold Kotlin_initRuntimeIfNeeded initRuntime
  simp [hv, hshut, abortWith]

/-- Witness for C1 (amended): from the state reached by a completed shutdown,
any further execution keeps the status at `Shutdown` and constructs nothing,
and a fresh thread's `ensure` aborts with the "was shut down" diagnostic. -/
theorem claim_C1_witness :
    (run (initialState false false) [Action.ensure 0 true, Action.shutdownBegin 0,
      Action.shutdownStep]).globalRuntimeStatus = GlobalRuntimeStatus.kGlobalRuntimeShutdown ∧
    (run (run (initialState false false) [Action.ensure 0 true, Action.shutdownBegin 0,
      Action.shutdownStep]) [Action.ensure 1 true, Action.ensure 2 false]).handles.length =
      (run (initialState false false) [Action.ensure 0 true, Action.shutdownBegin 0,
        Action.shutdownStep]).handles.length ∧
    (Kotlin_initRuntimeIfNeeded (run (initialState false false) [Action.ensure 0 true,
      Action.shutdownBegin 0, Action.shutdownStep]) 1 true).aborted =
      some "Kotlin runtime was shut down. Cannot create new runtimes" :=
  ⟨by decide,
    (claim_C1_theorem (run (initialState false false) [Action.ensure 0 true,
      Action.shutdownBegin 0, Action.shutdownStep]) [Action.ensure 1 true, Action.ensure 2 false]
      1 true (by decide)).2.1,
    (claim_C1_theorem (run (initialState false false) [Action.ensure 0 true,
      Action.shutdownBegin 0, Action.shutdownStep]) [Action.ensure 1 true, Action.ensure 2 false]
      1 true (by decide)).2.2 (by decide)⟩
/-! ## Claim C7: the registry preserves registration order -/

theorem chainFrom_none (nodes : List InitNode) (fuel : Nat) :
    chainFrom nodes fuel none = [] := by
  cases fuel <;> rfl

theorem regWF_empty : RegistryWF emptyRegistry [] := by
  refine ⟨rfl, ?_, rfl, rfl⟩
  intro i hi
  simp at hi

theorem regWF_append (r : InitializersRegistry) (cbs : List Nat) (cb : Nat)
    (h : RegistryWF r cbs) : RegistryWF (registerGlobalInitializer r cb) (cbs ++ [cb]) := by
  obtain ⟨hlen, hnodes, hhead, htail⟩ := h
  unfold registerGlobalInitializer AppendToInitializersTail
  by_cases hz : cbs.length = 0
  · have hcbs : cbs = [] := List.length_eq_zero.mp hz
    subst hcbs
    have hn : r.nodes = [] := List.length_eq_zero.mp hlen
    rw [hhead]
    simp only [List.length_nil, if_pos rfl]
    refine ⟨by simp [hn], ?_, by simp [hn], by simp [hn]⟩
    intro i hi
    simp only [List.length_append, List.length_nil, List.length_singleton] at hi
    interval_cases i
    simp [hn]
  · have hpos : 0 < cbs.length := Nat.pos_of_ne_zero hz
    rw [hhead, htail]
    simp only [hz, if_false]
    have htl : cbs.length - 1 < r.nodes.length := by omega
    refine ⟨?_, ?_, ?_, ?_⟩
    · simp only [List.length_set, List.length_append, List.length_singleton]
      omega
    · intro i hi
      simp only [List.length_append, List.length_singleton] at hi
      by_cases hi1 : i = cbs.length - 1
      · subst hi1
        rw [List.getElem?_set_self (by simp; omega)]
        have hnd := hnodes (cbs.length - 1) (by omega)
        have hgetD : (r.nodes ++ [({ init := cb, next := none } : InitNode)]).getD (cbs.length - 1)
            ({ init := 0, next := none } : InitNode) =
            { init := cbs.getD (cbs.length - 1) 0
              next := if cbs.length - 1 + 1 = cbs.length then none
                else some (cbs.length - 1 + 1) } := by
          rw [List.getD_eq_getElem?_getD, List.getElem?_append_left htl, hnd]
          rfl
        rw [hgetD]
        simp only [if_pos (by omega : cbs.length - 1 + 1 = cbs.length)]
        have hgoal1 : (cbs ++ [cb]).getD (cbs.length - 1) 0 = cbs.getD (cbs.length - 1) 0 := by
          rw [List.getD_eq_getElem?_getD, List.getD_eq_getElem?_getD,
            List.getElem?_append_left (by omega)]
        rw [hgoal1]
        have hne2 : ¬(cbs.length - 1 + 1 = cbs.length + 1) := by omega
        simp only [List.length_append, List.length_singleton, hne2, if_false,
          Option.some.injEq, InitNode.mk.injEq]
        refine ⟨trivial, ?_⟩
        rw [hlen]
        omega
      · by_cases hi2 : i < cbs.length - 1
        · rw [List.getElem?_set_ne (by omega)]
          rw [List.getElem?_append_left (by omega), hnodes i (by omega)]
          have hgoal1 : (cbs ++ [cb]).getD i 0 = cbs.getD i 0 := by
            rw [List.getD_eq_getElem?_getD, List.getD_eq_getElem?_getD,
              List.getElem?_append_left (by omega)]
          rw [hgoal1]
          have hne1 : ¬(i + 1 = cbs.length) := by omega
          have hne2 : ¬(i + 1 = cbs.length + 1) := by omega
          simp only [List.length_append, List.length_singleton, hne1, hne2, if_false]
        · have hi3 : i = cbs.length := by omega
          subst hi3
          rw [List.getElem?_set_ne (by omega)]
          have hconc : (r.nodes ++ [({ init := cb, next := none } : InitNode)])[cbs.length]? =
              some ({ init := cb, next := none } : InitNode) := by
            rw [← hlen]
            exact List.getElem?_concat_length r.nodes { init := cb, next := none }
          rw [hconc]
          have hgoal1 : (cbs ++ [cb]).getD cbs.length 0 = cb := by
            rw [List.getD_eq_getElem?_getD, List.getElem?_concat_length]
            rfl
          rw [hgoal1]
          simp
    · simp only [List.length_append, List.length_singleton]
      have : ¬(cbs.length + 1 = 0) := by omega
      simp [this, hlen]
    · simp only [List.length_append, List.length_singleton]
      have : ¬(cbs.length + 1 = 0) := by omega
      simp [this, hlen]

theorem chainFrom_regWF (r : InitializersRegistry) (cbs : List Nat) (h : RegistryWF r cbs) :
    ∀ fuel k, k < cbs.length → cbs.length - k ≤ fuel →
      chainFrom r.nodes fuel (some k) = cbs.drop k := by
  intro fuel
  induction fuel with
  | zero =>
    intro k hk hf
    omega
  | succ n ih =>
    intro k hk hf
    obtain ⟨hlen, hnodes, hhead, htail⟩ := h
    rw [chainFrom, hnodes k hk]
    simp only
    by_cases hk1 : k + 1 = cbs.length
    · have hdrop : cbs.drop k = [cbs.getD k 0] := by
        rw [List.drop_eq_getElem_cons hk]
        have h2 : cbs.drop (k + 1) = [] := by
          rw [List.drop_eq_nil_iff]
          omega
        rw [h2, List.getD_eq_getElem?_getD, List.getElem?_eq_getElem hk]
        rfl
      simp [hk1, chainFrom_none, hdrop]
    · simp only [hk1, if_false]
      rw [ih (k + 1) (by omega) (by omega)]
      rw [List.drop_eq_getElem_cons hk, List.getD_eq_getElem?_getD,
        List.getElem?_eq_getElem hk]
      rfl

theorem regWF_foldl (l : List Nat) (r : InitializersRegistry) (acc : List Nat)
    (h : RegistryWF r acc) :
    RegistryWF (l.foldl registerGlobalInitializer r) (acc ++ l) := by
  induction l generalizing r acc with
  | nil => simpa using h
  | cons x xs ih =>
    have h2 := regWF_append r acc x h
    have h3 := ih (registerGlobalInitializer r x) (acc ++ [x]) h2
    simpa using h3

/-- C7: building the registry by registering any list of callbacks in order
and then running any phase invokes every registered callback exactly once, in
registration order, passing the phase tag and the memory-manager state —
i.e. `AppendToInitializersTail` places each new node at the tail of the chain
and `InitOrDeinitGlobalVariables` walks the chain from the head. -/
theorem claim_C7_theorem (cbs : List Nat) (phase : Nat) (memory : Nat) :
    InitOrDeinitGlobalVariables (cbs.foldl registerGlobalInitializer emptyRegistry)
      phase memory = cbs.map fun cb => (cb, phase, memory) := by
  have hWF : RegistryWF (cbs.foldl registerGlobalInitializer emptyRegistry) cbs := by
    have h := regWF_foldl cbs emptyRegistry [] regWF_empty
    simpa using h
  obtain ⟨hlen, hnodes, hhead, htail⟩ := hWF
  unfold InitOrDeinitGlobalVariables
  by_cases hz : cbs.length = 0
  · have hcbs : cbs = [] := List.length_eq_zero.mp hz
    subst hcbs
    rw [hhead]
    simp [chainFrom_none]
  · rw [hhead]
    simp only [hz, if_false]
    rw [chainFrom_regWF _ cbs ⟨hlen, hnodes, hhead, htail⟩ _ 0 (by omega) (by omega)]
    simp
end KotlinRuntime
